import Mathlib

/-!
Verification development for the publish-and-revise pipeline of an
Exposure Notifications backend.

The corpus contains the test files of the `publish/model` package and the
federation-in database layer. The `publish/model` implementation itself
(`Revise`, `ReviseKeys`, `TransformPublish`, `ReportTypeTransmissionRisk`,
`DaysBetweenIntervals`, the interval algebra) is not in the corpus: those
functions are modelled from the specification, with every behavioural choice
pinned by the package's own test suite (`TestExposureReview`,
`TestReviseKeys`, `TestReviseKeys_FromFederation`, `TestTransform`,
`TestTransformOverlapping`, `TestReportTypeToTransmissionRisk`,
`TestDaysFromSymptomOnset`, `TestPublishValidation`).
`StartFederationInSync` is embedded from
`internal/federationin/database/federationin.go`, which is in the corpus.

Modelling conventions:
- wall time is an `Int` of UNIX seconds; 10-minute intervals are `Int`;
- Go `*T` optional scalars are `Option`; a missing `FederationQueryID` is
  the empty string, exactly as the zero value of the Go string field;
- machine `int32`/`int64` are embedded as `Int` (the quantities involved,
  interval numbers and day counts, are far from the 32-bit boundary and
  the tests never exercise wraparound);
- fallible operations return `Except`;
- Go's in-place mutation of an existing `Exposure` during revision is
  modelled functionally: `Revise` returns the updated record, and an error
  result carries no updated record at all, so error paths cannot mutate.
-/

namespace ENCore

/-- Modelled from the spec: report type constants of `pkg/api/v1` (not in
the corpus). The clinical report type is the string "likely", as the test
messages show. -/
def ReportTypeConfirmed : String := "confirmed"

/-- Modelled from the spec: the clinical / likely report type string. -/
def ReportTypeClinical : String := "likely"

/-- Modelled from the spec: the negative report type string. -/
def ReportTypeNegative : String := "negative"

/-- Modelled from the spec: transmission-risk constant for confirmed tests.
The numeric values of the four constants are not in the corpus; only their
identities matter to the claims, so representative distinct values are used. -/
def TransmissionRiskConfirmedStandard : Int := 2

/-- Modelled from the spec: transmission-risk constant for clinical diagnoses. -/
def TransmissionRiskClinical : Int := 4

/-- Modelled from the spec: transmission-risk constant for negative tests. -/
def TransmissionRiskNegative : Int := 6

/-- Modelled from the spec: transmission-risk constant for unknown reports. -/
def TransmissionRiskUnknown : Int := 0

/-- Modelled from the spec: lowest valid transmission risk. -/
def MinTransmissionRisk : Int := 0

/-- Modelled from the spec: highest valid transmission risk. -/
def MaxTransmissionRisk : Int := 8

/-- Modelled from the spec: minimum rolling period of a key. -/
def MinIntervalCount : Int := 1

/-- Modelled from the spec: maximum rolling period of a key, one UTC day. -/
def MaxIntervalCount : Int := 144

/-- Modelled from the spec: length of one interval in seconds (10 minutes). -/
def IntervalLengthSeconds : Int := 600

/-- Modelled from the spec: `intervalNumber(t) = floor(t_unix / 600)`.
`Int` division in Lean is Euclidean division, which agrees with floor
division for the positive divisor 600. -/
def IntervalNumber (t : Int) : Int := t / IntervalLengthSeconds

/-- Modelled from the spec: `timeForInterval(n) = epoch + 600 * n`. -/
def TimeForIntervalNumber (n : Int) : Int := n * IntervalLengthSeconds

/-- Modelled from the spec: `truncateWindow(t, w)` rounds `t` down to a
multiple of the window `w`. -/
def TruncateWindow (t w : Int) : Int := (t / w) * w

/-- Modelled from the spec: `daysBetweenIntervals(a, b)` computes the whole
days from interval `a` to interval `b`, rounding toward negative infinity.
Embedded the way a systems language computes it: truncated division with a
decrement when the remainder is negative. -/
def DaysBetweenIntervals (a b : Int) : Int :=
  let distance := b - a
  let days := Int.tdiv distance MaxIntervalCount
  if Int.tmod distance MaxIntervalCount < 0 then days - 1 else days

/-- Modelled from the spec: the durable record for one temporary exposure
key. Field-for-field image of the Go `Exposure` struct as the tests
construct it; optional scalars are `Option`, a missing federation query id
is the empty string. -/
structure Exposure where
  exposureKey : List Nat := []
  transmissionRisk : Int := 0
  appPackageName : String := ""
  regions : List String := []
  intervalNumber : Int := 0
  intervalCount : Int := 0
  createdAt : Int := 0
  localProvenance : Bool := false
  federationQueryID : String := ""
  exportImportID : Option Int := none
  reportType : String := ""
  healthAuthorityID : Option Int := none
  daysSinceSymptomOnset : Option Int := none
  revisedAt : Option Int := none
  revisedReportType : Option String := none
  revisedTransmissionRisk : Option Int := none
  revisedDaysSinceSymptomOnset : Option Int := none
deriving DecidableEq

deriving instance DecidableEq for Except

/-- Modelled from the spec: effective transmission risk. A provided nonzero
transmission risk is preserved; a zero one is backfilled from the verified
report type. -/
def ReportTypeTransmissionRisk (reportType : String) (tr : Int) : Int :=
  if tr ≠ 0 then tr
  else if reportType = ReportTypeConfirmed then TransmissionRiskConfirmedStandard
  else if reportType = ReportTypeClinical then TransmissionRiskClinical
  else if reportType = ReportTypeNegative then TransmissionRiskNegative
  else TransmissionRiskUnknown

/-- Errors the revision engine can refuse a candidate revision with. -/
inductive ReviseError where
  | notSameFederationSource
  | nonLocalProvenance
  | keyAlreadyRevised
  | keyMismatch
  | invalidTransition (rtFrom rtTo : String)
deriving DecidableEq

/-- Human-readable message of a revision error, matching the strings the
tests assert on. -/
def ReviseError.message : ReviseError → String
  | .notSameFederationSource => "exposure keys came from different federation sources"
  | .nonLocalProvenance => "key not originally uploaded to this server, cannot revise"
  | .keyAlreadyRevised => "key has already been revised and cannot be revised again"
  | .keyMismatch => "attempted to revise a key with a different key"
  | .invalidTransition rtFrom rtTo =>
      "invalid report type transition: cannot transition from \"" ++ rtFrom ++
        "\" to \"" ++ rtTo ++ "\""

/-- Modelled from the spec: the report-type transition lattice for a pair of
distinct report types. Allowed: empty or likely into confirmed, and anything
out of negative (permitted by omission, per the spec's design notes). -/
def transitionAllowed (rtFrom rtTo : String) : Bool :=
  (rtTo = ReportTypeConfirmed && (rtFrom = "" || rtFrom = ReportTypeClinical)) ||
    rtFrom = ReportTypeNegative

/-- Modelled from the spec: stable-order set union of region lists, existing
regions first, then each incoming region not already present, in order. -/
def regionUnion (a b : List String) : List String :=
  b.foldl (fun acc r => if r ∈ acc then acc else acc ++ [r]) a

/-- Modelled from the spec: the mutation applied to the existing record by
an accepted revision. The Revised* view is set from the incoming record
(the revised transmission risk backfilled through the report-type table,
as `TestExposureReview` pins), the health authority id is taken from the
incoming record, regions are unioned, and every other original field is
kept. -/
def applyRevision (e incoming : Exposure) : Exposure :=
  { e with
    healthAuthorityID := incoming.healthAuthorityID
    regions := regionUnion e.regions incoming.regions
    revisedAt := some incoming.createdAt
    revisedReportType := some incoming.reportType
    revisedTransmissionRisk :=
      some (ReportTypeTransmissionRisk incoming.reportType incoming.transmissionRisk)
    revisedDaysSinceSymptomOnset := incoming.daysSinceSymptomOnset }

/-- Modelled from the spec: `(existing).Revise(incoming)` decides whether
the incoming record revises the existing one. The order of the checks is
the one the test suite pins: provenance-source gate, key equality, equal
report types as a no-op, replayed revision as a no-op, already-revised
refusal, non-local-provenance refusal (existing record not locally
provenanced and the incoming record carrying no provenance tag at all),
then the transition lattice. On success it returns the needs-revision flag
and the (possibly) updated record. -/
def Exposure.Revise (e incoming : Exposure) : Except ReviseError (Bool × Exposure) :=
  if e.federationQueryID ≠ incoming.federationQueryID ∨
      e.exportImportID ≠ incoming.exportImportID then
    .error .notSameFederationSource
  else if e.exposureKey ≠ incoming.exposureKey then
    .error .keyMismatch
  else if e.reportType = incoming.reportType then
    .ok (false, e)
  else if e.revisedAt.isSome then
    if e.revisedReportType = some incoming.reportType then
      .ok (false, e)
    else
      .error .keyAlreadyRevised
  else if ¬ e.localProvenance ∧ incoming.federationQueryID = "" ∧
      incoming.exportImportID = none then
    .error .nonLocalProvenance
  else if transitionAllowed e.reportType incoming.reportType then
    .ok (true, applyRevision e incoming)
  else
    .error (.invalidTransition e.reportType incoming.reportType)

/-- First existing exposure holding the given key bytes; the existing rows
are keyed by their key bytes, mirroring the Go `map[base64(key)]`. -/
def lookupExposure (existing : List Exposure) (key : List Nat) : Option Exposure :=
  existing.find? (fun e => e.exposureKey = key)

/-- Modelled from the spec: `ReviseKeys(existing, incoming)` merges the
incoming batch against the existing rows. An incoming key with no existing
row is inserted as new; a matching row goes through `Revise`; any revision
error aborts the merge; only mutated or inserted records are emitted, in
incoming order. -/
def ReviseKeys (existing : List Exposure) : List Exposure → Except ReviseError (List Exposure)
  | [] => .ok []
  | k :: rest =>
    match lookupExposure existing k.exposureKey with
    | none =>
      match ReviseKeys existing rest with
      | .error err => .error err
      | .ok out => .ok (k :: out)
    | some e =>
      match e.Revise k with
      | .error err => .error err
      | .ok (true, revised) =>
        match ReviseKeys existing rest with
        | .error err => .error err
        | .ok out => .ok (revised :: out)
      | .ok (false, _) => ReviseKeys existing rest

/-- One key of a publish batch, as submitted by a client. The key bytes are
embedded already base64-decoded (no claim concerns the decoder itself). -/
structure ExposureKeyIn where
  key : List Nat := []
  intervalNumber : Int := 0
  intervalCount : Int := 0
  transmissionRisk : Int := 0
deriving DecidableEq

/-- A publish batch; a zero `symptomOnsetInterval` means the client supplied
none, as in the Go struct. -/
structure Publish where
  keys : List ExposureKeyIn := []
  healthAuthorityID : String := ""
  symptomOnsetInterval : Int := 0
deriving DecidableEq

/-- Verified health-authority claims attached to a publish; zero fields mean
absent, as in the Go struct. -/
structure VerifiedClaims where
  healthAuthorityID : Int := 0
  reportType : String := ""
  symptomOnsetInterval : Int := 0
deriving DecidableEq

/-- Transformer configuration; durations are seconds. -/
structure TransformerConfig where
  maxExposureKeys : Nat := 0
  maxSameDayKeys : Nat := 0
  maxIntervalStartAge : Int := 0
  truncateWindow : Int := 1
  maxSymptomOnsetDays : Nat := 0
  maxValidSymptomOnsetReportDays : Nat := 0
  defaultSymptomOnsetDaysAgo : Nat := 0
  debugReleaseSameDayKeys : Bool := false
deriving DecidableEq

/-- Result of a successful publish transform: normalized exposures plus
per-key warnings. The aggregate `PublishInfo` statistics, which no claim
touches, are not embedded. -/
structure TransformResult where
  exposures : List Exposure := []
  warnings : List String := []
deriving DecidableEq

/-- Keep the first occurrence of every string, preserving order. -/
def dedupeStable (l : List String) : List String :=
  l.foldl (fun acc r => if r ∈ acc then acc else acc ++ [r]) []

/-- Modelled from the spec: the per-key validator and normalizer, checks in
the spec's order (length, transmission-risk bounds, interval-count bounds,
minimum window, no future start), error messages as the tests assert them.
A key still valid at batch time has its `createdAt` embargoed to the end of
its validity window plus one truncate window, unless the debug release flag
is set. -/
def transformExposureKey (cfg : TransformerConfig) (appPackageName : String)
    (upperRegions : List String) (reportType : String) (haID : Option Int)
    (batchCreatedAt minInterval currentInterval : Int) (k : ExposureKeyIn) :
    Except String Exposure :=
  let kLen := k.key.length
  let tr := k.transmissionRisk
  let ic := k.intervalCount
  let inum := k.intervalNumber
  let icMin := MinIntervalCount
  let icMax := MaxIntervalCount
  let trMin := MinTransmissionRisk
  let trMax := MaxTransmissionRisk
  if kLen ≠ 16 then .error s!"invalid key length, {kLen}, must be 16"
  else if tr < trMin ∨ tr > trMax then
    .error s!"invalid transmission risk: {tr}, must be >= {trMin} && <= {trMax}"
  else if ic < icMin ∨ ic > icMax then
    .error s!"invalid interval count, {ic}, must be >= {icMin} && <= {icMax}"
  else if inum + ic < minInterval then
    let keyEnd := inum + ic
    .error s!"key expires before minimum window; {inum} + {ic} = {keyEnd} which is too old, must be >= {minInterval}"
  else if inum > currentInterval then
    .error s!"interval number {inum} is in the future, must be <= {currentInterval}"
  else
    let createdAt :=
      if inum + ic > currentInterval ∧ ¬ cfg.debugReleaseSameDayKeys then
        TruncateWindow (TimeForIntervalNumber (inum + ic) + cfg.truncateWindow)
          cfg.truncateWindow
      else batchCreatedAt
    .ok { exposureKey := k.key
          transmissionRisk := ReportTypeTransmissionRisk reportType tr
          appPackageName := appPackageName
          regions := upperRegions
          intervalNumber := inum
          intervalCount := ic
          createdAt := createdAt
          localProvenance := true
          reportType := reportType
          healthAuthorityID := haID }

/-- Modelled from the spec: a candidate symptom-onset interval is usable
when it is not further in the past than `maxValidSymptomOnsetReportDays`. -/
def onsetWithinRange (cfg : TransformerConfig) (currentInterval onset : Int) : Bool :=
  DaysBetweenIntervals onset currentInterval ≤ (cfg.maxValidSymptomOnsetReportDays : Int)

/-- Modelled from the spec: symptom-onset resolution, first usable source
wins: verified claim onset, then the user-supplied onset on the publish,
then `defaultSymptomOnsetDaysAgo` before batch time. The second component
is the missing-onset flag, true exactly when the default was used. -/
def resolveOnset (cfg : TransformerConfig) (p : Publish) (claims : Option VerifiedClaims)
    (batchTime : Int) : Int × Bool :=
  let currentInterval := IntervalNumber batchTime
  let fromPublish : Int × Bool :=
    if p.symptomOnsetInterval > 0 &&
        onsetWithinRange cfg currentInterval p.symptomOnsetInterval then
      (p.symptomOnsetInterval, false)
    else
      (IntervalNumber (batchTime - (cfg.defaultSymptomOnsetDaysAgo : Int) * 86400), true)
  match claims with
  | some c =>
    if c.symptomOnsetInterval > 0 &&
        onsetWithinRange cfg currentInterval c.symptomOnsetInterval then
      (c.symptomOnsetInterval, false)
    else fromPublish
  | none => fromPublish

/-- Warning emitted when a key's symptom-onset distance is out of range and
the key is dropped, exactly as the test asserts it. -/
def onsetTooLargeWarning (i days maxDays : Nat) : String :=
  s!"key {i} symptom onset is too large, {days} > {maxDays} - saving without this key"

/-- Modelled from the spec: the per-key loop of the publish transformer.
Any validator failure aborts with that error; a key whose absolute
days-since-symptom-onset exceeds the configured maximum is dropped with a
warning instead, and every kept key carries its computed day offset. -/
def transformKeys (cfg : TransformerConfig) (appPackageName : String)
    (upperRegions : List String) (reportType : String) (haID : Option Int)
    (batchCreatedAt minInterval currentInterval onsetInterval : Int) :
    Nat → List ExposureKeyIn → Except String (List Exposure × List String)
  | _, [] => .ok ([], [])
  | i, k :: rest =>
    match transformExposureKey cfg appPackageName upperRegions reportType haID
        batchCreatedAt minInterval currentInterval k with
    | .error e => .error e
    | .ok exp =>
      match transformKeys cfg appPackageName upperRegions reportType haID
          batchCreatedAt minInterval currentInterval onsetInterval (i + 1) rest with
      | .error e => .error e
      | .ok (es, ws) =>
        let days := DaysBetweenIntervals onsetInterval k.intervalNumber
        if days.natAbs > cfg.maxSymptomOnsetDays then
          .ok (es, onsetTooLargeWarning i days.natAbs cfg.maxSymptomOnsetDays :: ws)
        else
          .ok ({ exp with daysSinceSymptomOnset := some days } :: es, ws)

/-- An exposure with its days-since-symptom-onset field set, as the per-key
loop emits kept keys. -/
def withOnset (e : Exposure) (d : Int) : Exposure :=
  { e with daysSinceSymptomOnset := some d }

/-- Insert an exposure into a list sorted by `intervalNumber`, after all
strictly smaller interval numbers and before equal ones: the resulting sort
is stable. -/
def sortedInsert (e : Exposure) : List Exposure → List Exposure
  | [] => [e]
  | x :: xs =>
    if x.intervalNumber < e.intervalNumber then x :: sortedInsert e xs
    else e :: x :: xs

/-- Stable sort of exposures by `intervalNumber`, the order the overlap
detector scans. -/
def sortByInterval : List Exposure → List Exposure
  | [] => []
  | e :: rest => sortedInsert e (sortByInterval rest)

/-- Error emitted when two adjacent sorted keys with different start
intervals overlap. -/
def overlapErrorMessage : String := "exposure keys have non aligned overlapping intervals"

/-- Error emitted when too many keys share one start interval. -/
def tooManyOverlapError (li : Int) (maxSameDay got : Nat) : String :=
  s!"too many overlapping keys for start interval: {li} want: <= {maxSameDay}, got: {got}"

/-- Modelled from the spec: scan of the sorted key list. Keys sharing the
previous key's start interval grow its equivalence class, bounded by
`maxSameDay`; a key with a new start interval must not begin before the end
of the previous key's range. -/
def checkSortedIntervals (maxSameDay : Nat) (prev : Exposure) (sameCount : Nat) :
    List Exposure → Except String Unit
  | [] => .ok ()
  | e :: rest =>
    if e.intervalNumber = prev.intervalNumber then
      if sameCount + 1 > maxSameDay then
        .error (tooManyOverlapError prev.intervalNumber maxSameDay (sameCount + 1))
      else checkSortedIntervals maxSameDay e (sameCount + 1) rest
    else if e.intervalNumber < prev.intervalNumber + prev.intervalCount then
      .error overlapErrorMessage
    else checkSortedIntervals maxSameDay e 1 rest

/-- Entry point of the same-day / overlap batch check. -/
def checkIntervalOverlaps (maxSameDay : Nat) : List Exposure → Except String Unit
  | [] => .ok ()
  | e :: rest => checkSortedIntervals maxSameDay e 1 rest

/-- Report type taken from the verified claims, empty when there are none. -/
def claimsReportType : Option VerifiedClaims → String
  | some c => c.reportType
  | none => ""

/-- Health authority id taken from the verified claims; the zero value of
the Go int64 means absent. -/
def claimsHealthAuthorityID : Option VerifiedClaims → Option Int
  | some c => if c.healthAuthorityID ≠ 0 then some c.healthAuthorityID else none
  | none => none

/-- Modelled from the spec: the publish transformer. Batch-size checks,
region normalization, symptom-onset resolution, the per-key loop, then the
sort and same-day/overlap validation; any failure aborts the batch. -/
def TransformPublish (cfg : TransformerConfig) (p : Publish) (regions : List String)
    (claims : Option VerifiedClaims) (batchTime : Int) : Except String TransformResult :=
  let n := p.keys.length
  let m := cfg.maxExposureKeys
  if n = 0 then .error "no exposure keys in publish request"
  else if n > m then .error s!"too many exposure keys in publish: {n}, max of {m}"
  else
    let upperRegions := dedupeStable (regions.map String.toUpper)
    let batchCreatedAt := TruncateWindow batchTime cfg.truncateWindow
    let currentInterval := IntervalNumber batchTime
    let minInterval := IntervalNumber (batchTime - cfg.maxIntervalStartAge)
    let reportType := claimsReportType claims
    let haID := claimsHealthAuthorityID claims
    let onsetInterval := (resolveOnset cfg p claims batchTime).1
    match transformKeys cfg p.healthAuthorityID upperRegions reportType haID
        batchCreatedAt minInterval currentInterval onsetInterval 0 p.keys with
    | .error e => .error e
    | .ok (exposures, warnings) =>
      let sorted := sortByInterval exposures
      match checkIntervalOverlaps cfg.maxSameDayKeys sorted with
      | .error e => .error e
      | .ok _ => .ok { exposures := sorted, warnings := warnings }

/-! Federation-in ledger, embedded from
`internal/federationin/database/federationin.go`. The SQL store is embedded
as an explicit state holding the `FederationInQuery` and `FederationInSync`
rows; a transaction is one state-to-state function application, which makes
its atomicity structural. -/

/-- A `FederationInQuery` bookmark row, fields as selected by the queries in
`federationin.go`. -/
structure FederationInQuery where
  queryID : String := ""
  serverAddr : String := ""
  audience : String := ""
  includeRegions : List String := []
  excludeRegions : List String := []
  onlyLocalProvenance : Bool := false
  onlyTravelers : Bool := false
  lastTimestamp : Int := 0
  lastCursor : String := ""
  lastRevisedTimestamp : Int := 0
  lastRevisedCursor : String := ""
deriving DecidableEq

/-- A `FederationInSync` historical row; nullable columns are `Option`. -/
structure FederationInSync where
  syncID : Int := 0
  queryID : String := ""
  started : Int := 0
  completed : Option Int := none
  insertions : Option Int := none
  maxTimestamp : Option Int := none
  maxRevisedTimestamp : Option Int := none
deriving DecidableEq

/-- One cursor of the federation fetch state: a timestamp and an opaque
continuation token. -/
structure FetchCursor where
  timestamp : Int := 0
  nextToken : String := ""
deriving DecidableEq

/-- The `federation.FetchState` pair of cursors the finalizer receives. -/
structure FetchState where
  keyCursor : FetchCursor := {}
  revisedKeyCursor : FetchCursor := {}
deriving DecidableEq

/-- The rows the federation-in database holds. -/
structure FederationInDBState where
  queries : List FederationInQuery := []
  syncs : List FederationInSync := []
deriving DecidableEq

/-- Modelled from the spec: `q.UpdateFetchState(state)` writes the bookmark
cursor pair from the fetch state onto the query (only its caller in
`federationin.go` is in the corpus). -/
def FederationInQuery.UpdateFetchState (q : FederationInQuery) (state : FetchState) :
    FederationInQuery :=
  { q with
    lastTimestamp := state.keyCursor.timestamp
    lastCursor := state.keyCursor.nextToken
    lastRevisedTimestamp := state.revisedKeyCursor.timestamp
    lastRevisedCursor := state.revisedKeyCursor.nextToken }

/-- The finalize closure returned by `StartFederationInSync`, embedded from
`federationin.go`. The closure's captured `syncID` and computed `completed`
time (started plus elapsed wall time, which the embedding takes as a
parameter) are explicit arguments; `unixToTimestamp`, which truncates a
UNIX timestamp to whole seconds, is the identity on the second-granular
`Int` time of this embedding. When `totalInserted > 0` the bookmark row of
the query is updated from the fetch state and written back; the sync row is
always completed with the insertion count, and its max timestamps stay null
on an empty sync. -/
def finalizeFederationInSync (syncID completed : Int) (state : FetchState)
    (q : FederationInQuery) (totalInserted : Int) (db : FederationInDBState) :
    FederationInDBState :=
  let db1 :=
    if totalInserted > 0 then
      let q2 := q.UpdateFetchState state
      { db with
        queries := db.queries.map (fun r =>
          if r.queryID = q2.queryID then
            { r with
              lastTimestamp := q2.lastTimestamp
              lastCursor := q2.lastCursor
              lastRevisedTimestamp := q2.lastRevisedTimestamp
              lastRevisedCursor := q2.lastRevisedCursor }
          else r) }
    else db
  let maxT : Option Int := if totalInserted > 0 then some state.keyCursor.timestamp else none
  let maxR : Option Int :=
    if totalInserted > 0 then some state.revisedKeyCursor.timestamp else none
  { db1 with
    syncs := db1.syncs.map (fun s =>
      if s.syncID = syncID then
        { s with
          completed := some completed
          insertions := some totalInserted
          maxTimestamp := maxT
          maxRevisedTimestamp := maxR }
      else s) }

/-! Concrete sample records used to instantiate the theorems below. -/

/-- Sixteen bytes of a sample temporary exposure key. -/
def tekBytes : List Nat := [0, 1, 2, 3, 4, 5, 6, 7, 8, 9, 10, 11, 12, 13, 14, 15]

/-- Existing record of a sample accepted revision, the valid-revision shape
of the test suite. -/
def reviseSampleExisting : Exposure :=
  { exposureKey := tekBytes, reportType := ReportTypeClinical, localProvenance := true
    healthAuthorityID := some 2, regions := ["US", "CA"], transmissionRisk := 4
    createdAt := 1000, daysSinceSymptomOnset := some (-1) }

/-- Incoming record of the sample accepted revision. -/
def reviseSampleIncoming : Exposure :=
  { exposureKey := tekBytes, reportType := ReportTypeConfirmed
    healthAuthorityID := some 3, regions := ["MX"], transmissionRisk := 5
    createdAt := 2000, daysSinceSymptomOnset := some 0 }

/-- Existing record whose report type is confirmed, locally provenanced. -/
def confirmedLocalExposure : Exposure :=
  { exposureKey := tekBytes, reportType := ReportTypeConfirmed, localProvenance := true }

/-- Incoming record carrying a clinical (likely) report for the same key. -/
def clinicalIncomingExposure : Exposure :=
  { exposureKey := tekBytes, reportType := ReportTypeClinical }

/-- Existing record with a clinical report, locally provenanced. -/
def clinicalLocalExposure : Exposure :=
  { exposureKey := tekBytes, reportType := ReportTypeClinical, localProvenance := true }

/-- Incoming record carrying a confirmed report sourced from an
export-import peer (provenance tag set). -/
def importedConfirmedExposure : Exposure :=
  { exposureKey := tekBytes, reportType := ReportTypeConfirmed, exportImportID := some 7 }

/-- Existing non-local record with no provenance tags, clinical report. -/
def untaggedClinicalExposure : Exposure :=
  { exposureKey := tekBytes, reportType := ReportTypeClinical }

/-- Incoming record with no provenance tags, confirmed report. -/
def untaggedConfirmedExposure : Exposure :=
  { exposureKey := tekBytes, reportType := ReportTypeConfirmed }

/-- Existing non-local record sourced from export import 2 (the
`export_import_same` configuration of the test suite). -/
def sameSourceExisting : Exposure :=
  { exposureKey := tekBytes, reportType := ReportTypeClinical, exportImportID := some 2 }

/-- Incoming record from the same export import 2, confirmed report. -/
def sameSourceIncoming : Exposure :=
  { exposureKey := tekBytes, reportType := ReportTypeConfirmed, exportImportID := some 2 }

/-- Sample transformer configuration mirroring the test transformer: at
most 10 keys, 1 same-day key, 14 days of interval age, one-hour windows,
14 onset days, 28 valid report days, default onset 4 days ago. -/
def sampleConfig : TransformerConfig :=
  { maxExposureKeys := 10, maxSameDayKeys := 1, maxIntervalStartAge := 1209600
    truncateWindow := 3600, maxSymptomOnsetDays := 14
    maxValidSymptomOnsetReportDays := 28, defaultSymptomOnsetDaysAgo := 4 }

/-- Sample batch time, seven days after 2020-02-29T11:15:01Z; its interval
number is 2639299 and its hour-truncation is 1583578800. -/
def sampleBatchTime : Int := 1583579701

/-- Second sample key bytes. -/
def tekBytes2 : List Nat := [1, 1, 1, 1, 1, 1, 1, 1, 1, 1, 1, 1, 1, 1, 1, 1]

/-- Third sample key bytes. -/
def tekBytes3 : List Nat := [2, 2, 2, 2, 2, 2, 2, 2, 2, 2, 2, 2, 2, 2, 2, 2]

/-- Publish batch of the onset-overflow scenario: the verified claim's
onset lies 14 days before the first key and 15 before the second, so the
second must be dropped with a warning. -/
def onsetOverflowPublish : Publish :=
  { keys := [ { key := tekBytes, intervalNumber := 2638291, intervalCount := 144 },
              { key := tekBytes2, intervalNumber := 2638435, intervalCount := 144 } ]
    healthAuthorityID := "State Health Dept" }

/-- Verified claims of the onset-overflow scenario. -/
def onsetOverflowClaims : VerifiedClaims :=
  { healthAuthorityID := 27, reportType := "likely", symptomOnsetInterval := 2636275 }

/-- Expected transform result of the onset-overflow scenario: the first key
kept with fourteen onset days, the second dropped with the warning. -/
def onsetOverflowResult : TransformResult :=
  { exposures := [
      { exposureKey := tekBytes, transmissionRisk := 4
        appPackageName := "State Health Dept", intervalNumber := 2638291
        intervalCount := 144, createdAt := 1583578800, localProvenance := true
        reportType := "likely", healthAuthorityID := some 27
        daysSinceSymptomOnset := some 14 } ]
    warnings := ["key 1 symptom onset is too large, 15 > 14 - saving without this key"] }

/-- Transformer configuration of the overlap scenarios: 3 same-day keys
allowed, three days of interval age, no default onset offset. -/
def overlapConfig : TransformerConfig :=
  { maxExposureKeys := 10, maxSameDayKeys := 3, maxIntervalStartAge := 259200
    truncateWindow := 3600, maxSymptomOnsetDays := 14
    maxValidSymptomOnsetReportDays := 28, defaultSymptomOnsetDaysAgo := 0 }

/-- Two-key batch with non-aligned overlapping intervals (starts 2639010
and 2639152, both 144 intervals long). -/
def overlapTwoKeyPublish : Publish :=
  { keys := [ { key := tekBytes, intervalNumber := 2639010, intervalCount := 144 },
              { key := tekBytes2, intervalNumber := 2639152, intervalCount := 144 } ]
    healthAuthorityID := "State Health Dept" }

/-- Three-key batch in which a long same-day key shadows the overlap: the
first key covers intervals [2639010, 2639154), the third starts at 2639060
inside that range, but the second key, sharing the first start with only 44
intervals, is what the sorted adjacent scan compares the third against. -/
def shadowedOverlapPublish : Publish :=
  { keys := [ { key := tekBytes, intervalNumber := 2639010, intervalCount := 144, transmissionRisk := 1 },
              { key := tekBytes2, intervalNumber := 2639010, intervalCount := 44, transmissionRisk := 1 },
              { key := tekBytes3, intervalNumber := 2639060, intervalCount := 44, transmissionRisk := 1 } ]
    healthAuthorityID := "State Health Dept" }

/-- Sample federation bookmark row. -/
def sampleQuery : FederationInQuery :=
  { queryID := "q1", serverAddr := "peer.example", audience := "aud"
    lastTimestamp := 500, lastCursor := "cur", lastRevisedTimestamp := 400
    lastRevisedCursor := "rcur" }

/-- Sample federation sync row, not yet completed. -/
def sampleSync : FederationInSync :=
  { syncID := 9, queryID := "q1", started := 600 }

/-- Sample federation database state holding the two sample rows. -/
def sampleFederationDB : FederationInDBState :=
  { queries := [sampleQuery], syncs := [sampleSync] }

/-- Sample fetch state with fresh cursors. -/
def sampleFetchState : FetchState :=
  { keyCursor := { timestamp := 900, nextToken := "t1" }
    revisedKeyCursor := { timestamp := 800, nextToken := "t2" } }

/-- The allowed-transition set exactly as the specification enumerates it:
empty into confirmed, likely into confirmed, confirmed into confirmed, and
negative into anything. Stated from the specification's words for
comparison with the code model `transitionAllowed`. -/
def specAllowedTransitionSet (rtFrom rtTo : String) : Bool :=
  (rtFrom = "" && rtTo = ReportTypeConfirmed) ||
    (rtFrom = ReportTypeClinical && rtTo = ReportTypeConfirmed) ||
    (rtFrom = ReportTypeConfirmed && rtTo = ReportTypeConfirmed) ||
    rtFrom = ReportTypeNegative

/-- The content of claim C5 for a successful transform of a publish batch:
every key of the batch passed the per-key validator (so no key was silently
dropped for any other reason, and no validator failure can be present in a
success), the number of emitted exposures is the number of keys within
symptom-onset range, every out-of-range key contributed its indexed warning
while the in-range keys are all present in the output with their computed
day offsets. -/
def C5Spec (cfg : TransformerConfig) (p : Publish) (regions : List String)
    (claims : Option VerifiedClaims) (batchTime : Int) (res : TransformResult) : Prop :=
  (∀ k ∈ p.keys,
    (transformExposureKey cfg p.healthAuthorityID (dedupeStable (regions.map String.toUpper))
      (claimsReportType claims) (claimsHealthAuthorityID claims)
      (TruncateWindow batchTime cfg.truncateWindow)
      (IntervalNumber (batchTime - cfg.maxIntervalStartAge)) (IntervalNumber batchTime)
      k).isOk = true) ∧
  res.exposures.length =
    (p.keys.filter (fun k =>
      (DaysBetweenIntervals (resolveOnset cfg p claims batchTime).1 k.intervalNumber).natAbs ≤
        cfg.maxSymptomOnsetDays)).length ∧
  ∀ j (hj : j < p.keys.length),
    ((DaysBetweenIntervals (resolveOnset cfg p claims batchTime).1
        (p.keys.get ⟨j, hj⟩).intervalNumber).natAbs > cfg.maxSymptomOnsetDays →
      onsetTooLargeWarning j
        (DaysBetweenIntervals (resolveOnset cfg p claims batchTime).1
          (p.keys.get ⟨j, hj⟩).intervalNumber).natAbs
        cfg.maxSymptomOnsetDays ∈ res.warnings) ∧
    ((DaysBetweenIntervals (resolveOnset cfg p claims batchTime).1
        (p.keys.get ⟨j, hj⟩).intervalNumber).natAbs ≤ cfg.maxSymptomOnsetDays →
      ∃ e ∈ res.exposures,
        e.exposureKey = (p.keys.get ⟨j, hj⟩).key ∧
        e.intervalNumber = (p.keys.get ⟨j, hj⟩).intervalNumber ∧
        e.daysSinceSymptomOnset =
          some (DaysBetweenIntervals (resolveOnset cfg p claims batchTime).1
            (p.keys.get ⟨j, hj⟩).intervalNumber))

/-! Helper lemmas. -/

/-- The truncated day division with negative-remainder adjustment is floor
division by 144. -/
theorem daysBetween_eq_fdiv (a b : Int) :
    DaysBetweenIntervals a b = Int.fdiv (b - a) 144 := by
  unfold DaysBetweenIntervals MaxIntervalCount
  set d := b - a with hd
  rw [Int.fdiv_eq_ediv _ (by norm_num)]
  show (if d.tmod 144 < 0 then d.tdiv 144 - 1 else d.tdiv 144) = d / 144
  have h1 : 144 * d.tdiv 144 + d.tmod 144 = d := Int.tdiv_add_tmod d 144
  have h2 : d.tmod 144 < 144 := Int.tmod_lt_of_pos d (by norm_num)
  have h3 : -144 < d.tmod 144 := by
    cases d with
    | ofNat m =>
      have : (0 : Int) ≤ Int.tmod (Int.ofNat m) 144 := Int.tmod_nonneg 144 (Int.ofNat_nonneg m)
      omega
    | negSucc m =>
      have he : Int.tmod (Int.negSucc m) 144 = -((↑m + 1) % (144 : Int)) := rfl
      have h4 : 0 ≤ ((↑m + 1) % (144 : Int)) := Int.emod_nonneg _ (by norm_num)
      have h5 : ((↑m + 1) % (144 : Int)) < 144 := Int.emod_lt_of_pos _ (by norm_num)
      omega
  split <;> omega

/-- The region union is the first list followed by some suffix: existing
regions keep their positions. -/
theorem regionUnion_suffix (b : List String) :
    ∀ a : List String, ∃ t, regionUnion a b = a ++ t := by
  induction b with
  | nil => intro a; exact ⟨[], by simp [regionUnion]⟩
  | cons r b ih =>
    intro a
    have hstep : regionUnion a (r :: b) = regionUnion (if r ∈ a then a else a ++ [r]) b := rfl
    by_cases hr : r ∈ a
    · rcases ih a with ⟨t, ht⟩
      rw [hstep, if_pos hr, ht]
      exact ⟨t, rfl⟩
    · rcases ih (a ++ [r]) with ⟨t, ht⟩
      rw [hstep, if_neg hr, ht, List.append_assoc]
      exact ⟨[r] ++ t, rfl⟩

/-- Membership in the region union is membership in either operand: the
union is a set union. -/
theorem regionUnion_mem (b : List String) :
    ∀ (a : List String) (x : String), x ∈ regionUnion a b ↔ x ∈ a ∨ x ∈ b := by
  induction b with
  | nil => intro a x; simp [regionUnion]
  | cons r b ih =>
    intro a x
    have hstep : regionUnion a (r :: b) = regionUnion (if r ∈ a then a else a ++ [r]) b := rfl
    rw [hstep]
    by_cases hr : r ∈ a
    · rw [if_pos hr, ih]
      constructor
      · rintro (h | h)
        · exact Or.inl h
        · exact Or.inr (List.mem_cons_of_mem r h)
      · rintro (h | h)
        · exact Or.inl h
        · rcases List.mem_cons.mp h with h | h
          · exact Or.inl (h ▸ hr)
          · exact Or.inr h
    · rw [if_neg hr, ih]
      simp only [List.mem_append, List.mem_singleton, List.mem_cons]
      tauto

/-- A revision accepted by `Revise` produces exactly `applyRevision`. -/
theorem revise_ok_true_eq {e i e' : Exposure} (h : e.Revise i = .ok (true, e')) :
    e' = applyRevision e i := by
  unfold Exposure.Revise at h
  repeat' split at h
  all_goals simp_all

/-- The per-key validator leaves key bytes, start interval and interval
count unchanged on the record it accepts. -/
theorem transformExposureKey_ok_fields {cfg : TransformerConfig} {app : String}
    {regs : List String} {rt : String} {ha : Option Int} {bca mi ci : Int}
    {k : ExposureKeyIn} {e : Exposure}
    (h : transformExposureKey cfg app regs rt ha bca mi ci k = .ok e) :
    e.exposureKey = k.key ∧ e.intervalNumber = k.intervalNumber ∧
      e.intervalCount = k.intervalCount := by
  simp only [transformExposureKey] at h
  repeat' split at h
  all_goals try simp_all
  all_goals subst e
  all_goals exact ⟨rfl, rfl, rfl⟩

/-- Membership in a sorted insertion. -/
theorem mem_sortedInsert (e a : Exposure) : ∀ l : List Exposure,
    a ∈ sortedInsert e l ↔ a = e ∨ a ∈ l := by
  intro l
  induction l with
  | nil => simp [sortedInsert]
  | cons x xs ih =>
    unfold sortedInsert
    split
    · simp only [List.mem_cons, ih]
      tauto
    · simp only [List.mem_cons]

/-- The stable sort keeps exactly the members of its input. -/
theorem mem_sortByInterval (a : Exposure) : ∀ l : List Exposure,
    a ∈ sortByInterval l ↔ a ∈ l := by
  intro l
  induction l with
  | nil => simp [sortByInterval]
  | cons e rest ih =>
    unfold sortByInterval
    rw [mem_sortedInsert]
    simp only [List.mem_cons, ih]

/-- A sorted insertion grows the length by one. -/
theorem length_sortedInsert (e : Exposure) : ∀ l : List Exposure,
    (sortedInsert e l).length = l.length + 1 := by
  intro l
  induction l with
  | nil => rfl
  | cons x xs ih =>
    unfold sortedInsert
    split
    · simp [ih]
    · simp

/-- The stable sort preserves length. -/
theorem length_sortByInterval : ∀ l : List Exposure,
    (sortByInterval l).length = l.length := by
  intro l
  induction l with
  | nil => rfl
  | cons e rest ih =>
    unfold sortByInterval
    rw [length_sortedInsert, ih]
    rfl

/-- Specification of a successful per-key loop: every key passed the
validator, the kept-exposure count matches the in-onset-range key count,
out-of-range keys produced their indexed warnings, in-range keys are
present with their day offsets. -/
theorem transformKeys_ok_spec (cfg : TransformerConfig) (app : String)
    (regs : List String) (rt : String) (ha : Option Int) (bca mi ci onset : Int) :
    ∀ (ks : List ExposureKeyIn) (i : Nat) (es : List Exposure) (ws : List String),
      transformKeys cfg app regs rt ha bca mi ci onset i ks = .ok (es, ws) →
      ((∀ k ∈ ks, (transformExposureKey cfg app regs rt ha bca mi ci k).isOk = true) ∧
       es.length = (ks.filter (fun k =>
         (DaysBetweenIntervals onset k.intervalNumber).natAbs ≤
           cfg.maxSymptomOnsetDays)).length ∧
       ∀ j (hj : j < ks.length),
         (((DaysBetweenIntervals onset (ks.get ⟨j, hj⟩).intervalNumber).natAbs >
             cfg.maxSymptomOnsetDays →
           onsetTooLargeWarning (i + j)
             (DaysBetweenIntervals onset (ks.get ⟨j, hj⟩).intervalNumber).natAbs
             cfg.maxSymptomOnsetDays ∈ ws) ∧
          ((DaysBetweenIntervals onset (ks.get ⟨j, hj⟩).intervalNumber).natAbs ≤
             cfg.maxSymptomOnsetDays →
           ∃ e ∈ es, e.exposureKey = (ks.get ⟨j, hj⟩).key ∧
             e.intervalNumber = (ks.get ⟨j, hj⟩).intervalNumber ∧
             e.daysSinceSymptomOnset =
               some (DaysBetweenIntervals onset (ks.get ⟨j, hj⟩).intervalNumber)))) := by
  intro ks
  induction ks with
  | nil =>
    intro i es ws h
    simp only [transformKeys, Except.ok.injEq, Prod.mk.injEq] at h
    obtain ⟨h1, h2⟩ := h
    subst h1; subst h2
    refine ⟨by simp, by simp, ?_⟩
    intro j hj
    exact absurd hj (by simp)
  | cons k rest ih =>
    intro i es ws h
    simp only [transformKeys] at h
    cases htk : transformExposureKey cfg app regs rt ha bca mi ci k with
    | error msg => simp only [htk] at h; simp at h
    | ok exp =>
      simp only [htk] at h
      cases hrec : transformKeys cfg app regs rt ha bca mi ci onset (i + 1) rest with
      | error msg => simp only [hrec] at h; simp at h
      | ok pair =>
        obtain ⟨es', ws'⟩ := pair
        simp only [hrec] at h
        obtain ⟨hall, hlen, hidx⟩ := ih (i + 1) es' ws' hrec
        by_cases hb : (DaysBetweenIntervals onset k.intervalNumber).natAbs >
            cfg.maxSymptomOnsetDays
        · rw [if_pos hb] at h
          simp only [Except.ok.injEq, Prod.mk.injEq] at h
          obtain ⟨hes, hws⟩ := h
          subst hes; subst hws
          refine ⟨?_, ?_, ?_⟩
          · intro k' hk'
            rcases List.mem_cons.mp hk' with rfl | hk'
            · rw [htk]; rfl
            · exact hall k' hk'
          · have hble : ¬ ((DaysBetweenIntervals onset k.intervalNumber).natAbs ≤
                cfg.maxSymptomOnsetDays) := by omega
            simp only [List.filter_cons]
            rw [if_neg (by simpa using hble)]
            exact hlen
          · intro j hj
            cases j with
            | zero =>
              refine ⟨fun _ => ?_, fun hle => ?_⟩
              · simp only [List.get_cons_zero, Nat.add_zero]
                exact List.mem_cons_self _ ws'
              · have hle' : (DaysBetweenIntervals onset k.intervalNumber).natAbs ≤
                    cfg.maxSymptomOnsetDays := by simpa using hle
                exact absurd hle' (by omega)
            | succ j' =>
              have hj' : j' < rest.length := by simpa using hj
              obtain ⟨hdrop, hkeep⟩ := hidx j' hj'
              refine ⟨fun hgt => ?_, fun hle => ?_⟩
              · have hmem := hdrop (by simpa using hgt)
                have hidxeq : i + 1 + j' = i + (j' + 1) := by omega
                rw [hidxeq] at hmem
                exact List.mem_cons_of_mem _ hmem
              · obtain ⟨e, he, hf⟩ := hkeep (by simpa using hle)
                exact ⟨e, he, hf⟩
        · rw [if_neg hb] at h
          simp only [Except.ok.injEq, Prod.mk.injEq] at h
          obtain ⟨hes, hws⟩ := h
          subst hes; subst hws
          obtain ⟨hkey, hnum, hcnt⟩ := transformExposureKey_ok_fields htk
          refine ⟨?_, ?_, ?_⟩
          · intro k' hk'
            rcases List.mem_cons.mp hk' with rfl | hk'
            · rw [htk]; rfl
            · exact hall k' hk'
          · have hble : (DaysBetweenIntervals onset k.intervalNumber).natAbs ≤
                cfg.maxSymptomOnsetDays := by omega
            simp only [List.filter_cons]
            rw [if_pos (by simpa using hble)]
            simpa using hlen
          · intro j hj
            cases j with
            | zero =>
              refine ⟨fun hgt => ?_, fun _ => ?_⟩
              · have hgt' : (DaysBetweenIntervals onset k.intervalNumber).natAbs >
                    cfg.maxSymptomOnsetDays := by simpa using hgt
                exact absurd hgt' (by omega)
              · exact ⟨{ exp with daysSinceSymptomOnset := some (DaysBetweenIntervals onset k.intervalNumber) }, List.mem_cons_self _ _, hkey, hnum, rfl⟩
            | succ j' =>
              have hj' : j' < rest.length := by simpa using hj
              obtain ⟨hdrop, hkeep⟩ := hidx j' hj'
              refine ⟨fun hgt => ?_, fun hle => ?_⟩
              · have hmem := hdrop (by simpa using hgt)
                have hidxeq : i + 1 + j' = i + (j' + 1) := by omega
                rw [hidxeq] at hmem
                exact hmem
              · obtain ⟨e, he, hf⟩ := hkeep (by simpa using hle)
                exact ⟨e, List.mem_cons_of_mem _ he, hf⟩

/-- Inversion of a successful publish transform: the per-key loop succeeded
and the result holds its sorted exposures and its warnings. -/
theorem transformPublish_ok_inv (cfg : TransformerConfig) (p : Publish)
    (regions : List String) (claims : Option VerifiedClaims) (batchTime : Int)
    (res : TransformResult)
    (h : TransformPublish cfg p regions claims batchTime = .ok res) :
    ∃ es ws,
      transformKeys cfg p.healthAuthorityID (dedupeStable (regions.map String.toUpper))
        (claimsReportType claims) (claimsHealthAuthorityID claims)
        (TruncateWindow batchTime cfg.truncateWindow)
        (IntervalNumber (batchTime - cfg.maxIntervalStartAge)) (IntervalNumber batchTime)
        (resolveOnset cfg p claims batchTime).1 0 p.keys = .ok (es, ws) ∧
      res.exposures = sortByInterval es ∧ res.warnings = ws := by
  simp only [TransformPublish] at h
  by_cases h0 : p.keys.length = 0
  · rw [if_pos h0] at h; exact absurd h (by simp)
  rw [if_neg h0] at h
  by_cases h1 : p.keys.length > cfg.maxExposureKeys
  · rw [if_pos h1] at h; exact absurd h (by simp)
  rw [if_neg h1] at h
  cases htk : transformKeys cfg p.healthAuthorityID
      (dedupeStable (regions.map String.toUpper))
      (claimsReportType claims) (claimsHealthAuthorityID claims)
      (TruncateWindow batchTime cfg.truncateWindow)
      (IntervalNumber (batchTime - cfg.maxIntervalStartAge)) (IntervalNumber batchTime)
      (resolveOnset cfg p claims batchTime).1 0 p.keys with
  | error msg => simp only [htk] at h; simp at h
  | ok pair =>
    obtain ⟨es, ws⟩ := pair
    simp only [htk] at h
    cases hchk : checkIntervalOverlaps cfg.maxSameDayKeys (sortByInterval es) with
    | error msg => simp only [hchk] at h; simp at h
    | ok u =>
      simp only [hchk, Except.ok.injEq] at h
      subst h
      exact ⟨es, ws, rfl, rfl, rfl⟩

/-- C5: in every successful publish transform, every key of the batch
passed the per-key validator; a key whose resolved absolute
days-since-symptom-onset exceeds the configured maximum is dropped from the
result with its indexed warning while the remaining keys are all present
with their day offsets, and the exposure count equals the in-range key
count — onset overflow is the only per-key condition that does not abort
the batch. -/
theorem claim_C5 (cfg : TransformerConfig) (p : Publish) (regions : List String)
    (claims : Option VerifiedClaims) (batchTime : Int) (res : TransformResult)
    (h : TransformPublish cfg p regions claims batchTime = .ok res) :
    C5Spec cfg p regions claims batchTime res := by
  obtain ⟨es, ws, hks, hexp, hwarn⟩ :=
    transformPublish_ok_inv cfg p regions claims batchTime res h
  obtain ⟨hall, hlen, hidx⟩ :=
    transformKeys_ok_spec cfg p.healthAuthorityID
      (dedupeStable (regions.map String.toUpper))
      (claimsReportType claims) (claimsHealthAuthorityID claims)
      (TruncateWindow batchTime cfg.truncateWindow)
      (IntervalNumber (batchTime - cfg.maxIntervalStartAge)) (IntervalNumber batchTime)
      (resolveOnset cfg p claims batchTime).1 p.keys 0 es ws hks
  refine ⟨hall, ?_, ?_⟩
  · rw [hexp, length_sortByInterval]
    exact hlen
  · intro j hj
    obtain ⟨hdrop, hkeep⟩ := hidx j hj
    refine ⟨fun hgt => ?_, fun hle => ?_⟩
    · have hmem := hdrop hgt
      rw [hwarn]
      simpa using hmem
    · obtain ⟨e, he, hf⟩ := hkeep hle
      exact ⟨e, by rw [hexp]; exact (mem_sortByInterval e es).mpr he, hf⟩

/-- C5 witness: the onset-overflow scenario, where the second key resolves
to fifteen onset days against a maximum of fourteen and is dropped with its
warning while the first key is kept. -/
theorem claim_C5_witness :
    C5Spec sampleConfig onsetOverflowPublish [] (some onsetOverflowClaims)
      sampleBatchTime onsetOverflowResult :=
  claim_C5 sampleConfig onsetOverflowPublish [] (some onsetOverflowClaims)
    sampleBatchTime onsetOverflowResult (by decide)

/-- A class of keys sharing one start interval passes the sorted scan as
long as the running count stays within the same-day maximum. -/
theorem checkSorted_same_interval (m : Nat) (x : Int) :
    ∀ (l : List Exposure) (prev : Exposure) (c : Nat),
      prev.intervalNumber = x → (∀ e ∈ l, e.intervalNumber = x) →
      c + l.length ≤ m → checkSortedIntervals m prev c l = .ok () := by
  intro l
  induction l with
  | nil => intro prev c _ _ _; rfl
  | cons e rest ih =>
    intro prev c hprev hall hlen
    have he : e.intervalNumber = x := hall e (List.mem_cons_self e rest)
    unfold checkSortedIntervals
    rw [if_pos (by rw [he, hprev]), if_neg (by simp at hlen; omega)]
    exact ih e (c + 1) he (fun e' he' => hall e' (List.mem_cons_of_mem _ he'))
      (by simp at hlen; omega)

/-- Two keys with distinct, mutually overlapping interval ranges are
rejected by the overlap scan in whichever order they are sorted. -/
theorem checkIntervalOverlaps_twoKey (m : Nat) (a b : Exposure)
    (hne : a.intervalNumber ≠ b.intervalNumber)
    (hov1 : a.intervalNumber < b.intervalNumber + b.intervalCount)
    (hov2 : b.intervalNumber < a.intervalNumber + a.intervalCount) :
    checkIntervalOverlaps m (sortByInterval [a, b]) = .error overlapErrorMessage := by
  have hsort : sortByInterval [a, b] = sortedInsert a [b] := rfl
  rw [hsort]
  unfold sortedInsert
  by_cases hlt : b.intervalNumber < a.intervalNumber
  · rw [if_pos hlt]
    show checkIntervalOverlaps m (b :: [a]) = .error overlapErrorMessage
    unfold checkIntervalOverlaps checkSortedIntervals
    rw [if_neg (fun hh => hne hh), if_pos hov1]
  · rw [if_neg hlt]
    show checkIntervalOverlaps m (a :: [b]) = .error overlapErrorMessage
    unfold checkIntervalOverlaps checkSortedIntervals
    rw [if_neg (fun hh => hne hh.symm), if_pos hov2]

/-- One kept step of the per-key loop: a validated key within onset range
is prepended to the rest of the loop's output. -/
theorem transformKeys_cons_ok (cfg : TransformerConfig) (app : String)
    (regs : List String) (rt : String) (ha : Option Int) (bca mi ci onset : Int)
    (i : Nat) (k : ExposureKeyIn) (rest : List ExposureKeyIn) (exp : Exposure)
    (out : List Exposure × List String)
    (htk : transformExposureKey cfg app regs rt ha bca mi ci k = .ok exp)
    (hrest : transformKeys cfg app regs rt ha bca mi ci onset (i + 1) rest = .ok out)
    (hb : ¬ (DaysBetweenIntervals onset k.intervalNumber).natAbs >
      cfg.maxSymptomOnsetDays) :
    transformKeys cfg app regs rt ha bca mi ci onset i (k :: rest) =
      .ok (withOnset exp (DaysBetweenIntervals onset k.intervalNumber) :: out.1, out.2) := by
  obtain ⟨es, ws⟩ := out
  simp only [transformKeys, htk, hrest]
  rw [if_neg hb]
  rfl

/-- C6 (amended): a publish batch of two individually valid, in-onset-range
keys whose interval ranges overlap while their start intervals differ is
rejected with the non-aligned-overlap error regardless of the order in
which the two keys appear (the batch is sorted by start interval before the
scan); and keys sharing one identical start interval pass the overlap scan
as long as at most `maxSameDayKeys` share it. The amendment restricts the
overlap guarantee to the case in which the overlapping pair is adjacent
once sorted — in particular to two-key batches in either order: when a
further key shares the earlier start interval with a shorter range, the
adjacent scan compares the later key against the shorter neighbour and can
accept a batch whose extreme keys overlap (see the counterexample). -/
theorem claim_C6 :
    (∀ (cfg : TransformerConfig) (p : Publish) (regions : List String)
        (claims : Option VerifiedClaims) (batchTime : Int) (k1 k2 : ExposureKeyIn),
      p.keys = [k1, k2] →
      2 ≤ cfg.maxExposureKeys →
      (transformExposureKey cfg p.healthAuthorityID
        (dedupeStable (regions.map String.toUpper)) (claimsReportType claims)
        (claimsHealthAuthorityID claims) (TruncateWindow batchTime cfg.truncateWindow)
        (IntervalNumber (batchTime - cfg.maxIntervalStartAge)) (IntervalNumber batchTime)
        k1).isOk = true →
      (transformExposureKey cfg p.healthAuthorityID
        (dedupeStable (regions.map String.toUpper)) (claimsReportType claims)
        (claimsHealthAuthorityID claims) (TruncateWindow batchTime cfg.truncateWindow)
        (IntervalNumber (batchTime - cfg.maxIntervalStartAge)) (IntervalNumber batchTime)
        k2).isOk = true →
      (DaysBetweenIntervals (resolveOnset cfg p claims batchTime).1
        k1.intervalNumber).natAbs ≤ cfg.maxSymptomOnsetDays →
      (DaysBetweenIntervals (resolveOnset cfg p claims batchTime).1
        k2.intervalNumber).natAbs ≤ cfg.maxSymptomOnsetDays →
      k1.intervalNumber ≠ k2.intervalNumber →
      k1.intervalNumber < k2.intervalNumber + k2.intervalCount →
      k2.intervalNumber < k1.intervalNumber + k1.intervalCount →
      TransformPublish cfg p regions claims batchTime = .error overlapErrorMessage) ∧
    (∀ (m : Nat) (x : Int) (l : List Exposure),
      (∀ e ∈ l, e.intervalNumber = x) → l.length ≤ m →
      checkIntervalOverlaps m l = .ok ()) := by
  constructor
  · intro cfg p regions claims batchTime k1 k2 hkeys hmax hok1 hok2 hd1 hd2 hne hov1 hov2
    cases htk1 : transformExposureKey cfg p.healthAuthorityID
        (dedupeStable (regions.map String.toUpper)) (claimsReportType claims)
        (claimsHealthAuthorityID claims) (TruncateWindow batchTime cfg.truncateWindow)
        (IntervalNumber (batchTime - cfg.maxIntervalStartAge)) (IntervalNumber batchTime)
        k1 with
    | error msg => rw [htk1] at hok1; simp [Except.isOk, Except.toBool] at hok1
    | ok e1 =>
    cases htk2 : transformExposureKey cfg p.healthAuthorityID
        (dedupeStable (regions.map String.toUpper)) (claimsReportType claims)
        (claimsHealthAuthorityID claims) (TruncateWindow batchTime cfg.truncateWindow)
        (IntervalNumber (batchTime - cfg.maxIntervalStartAge)) (IntervalNumber batchTime)
        k2 with
    | error msg => rw [htk2] at hok2; simp [Except.isOk, Except.toBool] at hok2
    | ok e2 =>
    obtain ⟨hk1key, hk1num, hk1cnt⟩ := transformExposureKey_ok_fields htk1
    obtain ⟨hk2key, hk2num, hk2cnt⟩ := transformExposureKey_ok_fields htk2
    have ht2 : transformKeys cfg p.healthAuthorityID
        (dedupeStable (regions.map String.toUpper)) (claimsReportType claims)
        (claimsHealthAuthorityID claims) (TruncateWindow batchTime cfg.truncateWindow)
        (IntervalNumber (batchTime - cfg.maxIntervalStartAge)) (IntervalNumber batchTime)
        (resolveOnset cfg p claims batchTime).1 (0 + 1) [k2] =
        .ok (withOnset e2 (DaysBetweenIntervals (resolveOnset cfg p claims batchTime).1 k2.intervalNumber) :: [], []) :=
      transformKeys_cons_ok _ _ _ _ _ _ _ _ _ _ k2 [] e2 ([], []) htk2 rfl (by omega)
    have ht1 : transformKeys cfg p.healthAuthorityID
        (dedupeStable (regions.map String.toUpper)) (claimsReportType claims)
        (claimsHealthAuthorityID claims) (TruncateWindow batchTime cfg.truncateWindow)
        (IntervalNumber (batchTime - cfg.maxIntervalStartAge)) (IntervalNumber batchTime)
        (resolveOnset cfg p claims batchTime).1 0 [k1, k2] =
        .ok ([withOnset e1 (DaysBetweenIntervals (resolveOnset cfg p claims batchTime).1 k1.intervalNumber),
          withOnset e2 (DaysBetweenIntervals (resolveOnset cfg p claims batchTime).1 k2.intervalNumber)], []) :=
      transformKeys_cons_ok _ _ _ _ _ _ _ _ _ _ k1 [k2] e1
        (withOnset e2 (DaysBetweenIntervals (resolveOnset cfg p claims batchTime).1 k2.intervalNumber) :: [], [])
        htk1 ht2 (by omega)
    have hne' : (withOnset e1 (DaysBetweenIntervals (resolveOnset cfg p claims batchTime).1 k1.intervalNumber)).intervalNumber ≠
        (withOnset e2 (DaysBetweenIntervals (resolveOnset cfg p claims batchTime).1 k2.intervalNumber)).intervalNumber := by
      show e1.intervalNumber ≠ e2.intervalNumber
      rw [hk1num, hk2num]; exact hne
    have hov1' : (withOnset e1 (DaysBetweenIntervals (resolveOnset cfg p claims batchTime).1 k1.intervalNumber)).intervalNumber <
        (withOnset e2 (DaysBetweenIntervals (resolveOnset cfg p claims batchTime).1 k2.intervalNumber)).intervalNumber +
        (withOnset e2 (DaysBetweenIntervals (resolveOnset cfg p claims batchTime).1 k2.intervalNumber)).intervalCount := by
      show e1.intervalNumber < e2.intervalNumber + e2.intervalCount
      rw [hk1num, hk2num, hk2cnt]; exact hov1
    have hov2' : (withOnset e2 (DaysBetweenIntervals (resolveOnset cfg p claims batchTime).1 k2.intervalNumber)).intervalNumber <
        (withOnset e1 (DaysBetweenIntervals (resolveOnset cfg p claims batchTime).1 k1.intervalNumber)).intervalNumber +
        (withOnset e1 (DaysBetweenIntervals (resolveOnset cfg p claims batchTime).1 k1.intervalNumber)).intervalCount := by
      show e2.intervalNumber < e1.intervalNumber + e1.intervalCount
      rw [hk1num, hk2num, hk1cnt]; exact hov2
    have hchk := checkIntervalOverlaps_twoKey cfg.maxSameDayKeys _ _ hne' hov1' hov2'
    simp only [TransformPublish, hkeys]
    rw [if_neg (by simp)]
    rw [if_neg (by simp; omega)]
    simp only [ht1, hchk]
  · intro m x l hall hlen
    cases l with
    | nil => rfl
    | cons e rest =>
      unfold checkIntervalOverlaps
      exact checkSorted_same_interval m x rest e 1
        (hall e (List.mem_cons_self e rest))
        (fun e' he' => hall e' (List.mem_cons_of_mem _ he'))
        (by simp at hlen; omega)

/-- C6 witness: the non-aligned two-key scenario (starts 2639010 and
2639152, both 144 intervals) is rejected, and a class of three keys sharing
one start interval passes the scan with a same-day maximum of three. -/
theorem claim_C6_witness :
    TransformPublish overlapConfig overlapTwoKeyPublish [] none sampleBatchTime =
      .error overlapErrorMessage ∧
    checkIntervalOverlaps 3
      [{ intervalNumber := 2639010, intervalCount := 44 },
       { intervalNumber := 2639010, intervalCount := 88 },
       { intervalNumber := 2639010, intervalCount := 144 }] = .ok () :=
  ⟨claim_C6.1 overlapConfig overlapTwoKeyPublish [] none sampleBatchTime
      { key := tekBytes, intervalNumber := 2639010, intervalCount := 144 }
      { key := tekBytes2, intervalNumber := 2639152, intervalCount := 144 }
      rfl (by decide) (by decide) (by decide) (by decide) (by decide) (by decide)
      (by decide) (by decide),
    claim_C6.2 3 2639010 _ (by decide) (by decide)⟩

/-- C6 counterexample: the shadowed three-key batch is accepted even though
its first key (start 2639010, 144 intervals) and its third key (start
2639060, inside that range) overlap with different start intervals: the
sorted adjacent scan compares the third key against the second (start
2639010, only 44 intervals), which does not reach it. -/
theorem claim_C6_counterexample :
    (TransformPublish overlapConfig shadowedOverlapPublish [] none
      sampleBatchTime).isOk = true ∧
    (shadowedOverlapPublish.keys.get ⟨0, by decide⟩).intervalNumber ≠
      (shadowedOverlapPublish.keys.get ⟨2, by decide⟩).intervalNumber ∧
    (shadowedOverlapPublish.keys.get ⟨2, by decide⟩).intervalNumber <
      (shadowedOverlapPublish.keys.get ⟨0, by decide⟩).intervalNumber +
        (shadowedOverlapPublish.keys.get ⟨0, by decide⟩).intervalCount ∧
    (shadowedOverlapPublish.keys.get ⟨0, by decide⟩).intervalNumber <
      (shadowedOverlapPublish.keys.get ⟨2, by decide⟩).intervalNumber +
        (shadowedOverlapPublish.keys.get ⟨2, by decide⟩).intervalCount := by decide

/-- C1 (amended): for every pair of distinct report types outside the
allowed transition set, revising an otherwise-acceptable record (same
provenance, same key bytes, not yet revised, locally provenanced) fails
with the invalid-transition error carrying the quoted pair, and — the
embedding being functional — no updated record is produced. The amendment
restricts the claim to distinct report types: the code treats an identical
pair, also when it lies outside the allowed set, as a no-op rather than an
error (see the counterexample). -/
theorem claim_C1 (e i : Exposure)
    (hfed : e.federationQueryID = i.federationQueryID)
    (hexp : e.exportImportID = i.exportImportID)
    (hkey : e.exposureKey = i.exposureKey)
    (hne : e.reportType ≠ i.reportType)
    (hrev : e.revisedAt = none)
    (hloc : e.localProvenance = true)
    (hforbidden : specAllowedTransitionSet e.reportType i.reportType = false) :
    e.Revise i = .error (.invalidTransition e.reportType i.reportType) ∧
    (ReviseError.invalidTransition e.reportType i.reportType).message =
      "invalid report type transition: cannot transition from \"" ++ e.reportType ++
        "\" to \"" ++ i.reportType ++ "\"" := by
  have hta : transitionAllowed e.reportType i.reportType = false := by
    simp only [specAllowedTransitionSet, Bool.or_eq_false_iff, Bool.and_eq_false_iff,
      decide_eq_false_iff_not] at hforbidden
    simp only [transitionAllowed, Bool.or_eq_false_iff, Bool.and_eq_false_iff,
      decide_eq_false_iff_not]
    tauto
  refine ⟨?_, rfl⟩
  unfold Exposure.Revise
  rw [if_neg (by simp [hfed, hexp]), if_neg (by simp [hkey]), if_neg hne,
    if_neg (by simp [hrev]), if_neg (by simp [hloc]), if_neg (by simp [hta])]

/-- C1 witness: a confirmed record may not be downgraded to likely. -/
theorem claim_C1_witness :
    Exposure.Revise confirmedLocalExposure clinicalIncomingExposure =
      .error (.invalidTransition ReportTypeConfirmed ReportTypeClinical) :=
  (claim_C1 confirmedLocalExposure clinicalIncomingExposure rfl rfl rfl
    (by decide) rfl rfl (by decide)).1

/-- C1 counterexample: the pair likely-to-likely lies outside the claim's
allowed set, yet `Revise` returns no error (and no mutation): identical
report types are a no-op. -/
theorem claim_C1_counterexample :
    specAllowedTransitionSet ReportTypeClinical ReportTypeClinical = false ∧
    Exposure.Revise clinicalLocalExposure clinicalIncomingExposure =
      .ok (false, clinicalLocalExposure) := by decide

/-- C2: every accepted revision sets the Revised* view on the existing
record from the incoming one (the revised transmission risk through the
report-type backfill of the incoming values), leaves the original report
type, transmission risk, symptom-onset days and creation time untouched,
and unions the regions, existing regions first in their original order. -/
theorem claim_C2 (e i e' : Exposure) (h : e.Revise i = .ok (true, e')) :
    e'.revisedAt = some i.createdAt ∧
    e'.revisedReportType = some i.reportType ∧
    e'.revisedTransmissionRisk =
      some (ReportTypeTransmissionRisk i.reportType i.transmissionRisk) ∧
    e'.revisedDaysSinceSymptomOnset = i.daysSinceSymptomOnset ∧
    e'.reportType = e.reportType ∧
    e'.transmissionRisk = e.transmissionRisk ∧
    e'.daysSinceSymptomOnset = e.daysSinceSymptomOnset ∧
    e'.createdAt = e.createdAt ∧
    (∀ r, r ∈ e'.regions ↔ (r ∈ e.regions ∨ r ∈ i.regions)) ∧
    (∃ t, e'.regions = e.regions ++ t) := by
  have he : e' = applyRevision e i := revise_ok_true_eq h
  subst he
  refine ⟨rfl, rfl, rfl, rfl, rfl, rfl, rfl, rfl, ?_, ?_⟩
  · intro r; exact regionUnion_mem i.regions e.regions r
  · exact regionUnion_suffix i.regions e.regions

/-- C2 witness: the valid-revision scenario (likely with risk 4 in US and
CA, revised by confirmed with risk 5 in MX). -/
theorem claim_C2_witness :
    Exposure.Revise reviseSampleExisting reviseSampleIncoming =
      .ok (true, applyRevision reviseSampleExisting reviseSampleIncoming) ∧
    (applyRevision reviseSampleExisting reviseSampleIncoming).revisedAt = some 2000 ∧
    (applyRevision reviseSampleExisting reviseSampleIncoming).regions = ["US", "CA", "MX"] ∧
    (applyRevision reviseSampleExisting reviseSampleIncoming).transmissionRisk = 4 :=
  ⟨by decide,
    (claim_C2 reviseSampleExisting reviseSampleIncoming
      (applyRevision reviseSampleExisting reviseSampleIncoming) (by decide)).1,
    by decide, by decide⟩

/-- C3: when the first existing record holding the incoming key bytes
differs on either provenance identifier, `Revise` refuses with the
not-same-federation-source error and `ReviseKeys` fails the merge with the
same error; no updated record is produced. -/
theorem claim_C3 (existing : List Exposure) (e i : Exposure)
    (hfind : lookupExposure existing i.exposureKey = some e)
    (_hkey : e.exposureKey = i.exposureKey)
    (hdiff : e.federationQueryID ≠ i.federationQueryID ∨
      e.exportImportID ≠ i.exportImportID) :
    e.Revise i = .error .notSameFederationSource ∧
    ReviseKeys existing [i] = .error .notSameFederationSource := by
  have hrev : e.Revise i = .error .notSameFederationSource := by
    unfold Exposure.Revise
    rw [if_pos hdiff]
  exact ⟨hrev, by simp [ReviseKeys, hfind, hrev]⟩

/-- C3 witness: an import-sourced incoming key (export import id 7) against
a locally-sourced existing key of identical bytes. -/
theorem claim_C3_witness :
    Exposure.Revise clinicalLocalExposure importedConfirmedExposure =
      .error .notSameFederationSource ∧
    ReviseKeys [clinicalLocalExposure] [importedConfirmedExposure] =
      .error .notSameFederationSource :=
  claim_C3 [clinicalLocalExposure] clinicalLocalExposure importedConfirmedExposure
    (by decide) (by decide) (by decide)

/-- C4 (amended): a non-locally-provenanced existing record is refused with
the non-local-provenance error when the incoming record carries no
provenance tag at all — both tags missing, not either — and the checks that
run earlier all pass: equal (empty) provenance tags, matching key bytes,
distinct report types, not yet revised. The amendment is forced by the
`export_import_same` test configuration, where the incoming record misses
one tag yet the revision succeeds (see the counterexample). -/
theorem claim_C4 (e i : Exposure)
    (hloc : e.localProvenance = false)
    (hifed : i.federationQueryID = "") (hiexp : i.exportImportID = none)
    (hefed : e.federationQueryID = "") (heexp : e.exportImportID = none)
    (hkey : e.exposureKey = i.exposureKey)
    (hne : e.reportType ≠ i.reportType)
    (hrev : e.revisedAt = none) :
    e.Revise i = .error .nonLocalProvenance := by
  unfold Exposure.Revise
  rw [if_neg (by simp [hefed, hifed, heexp, hiexp]), if_neg (by simp [hkey]), if_neg hne,
    if_neg (by simp [hrev]), if_pos (by simp [hloc, hifed, hiexp])]

/-- C4 witness: the invalid-provenance scenario of the test suite, an
untagged non-local clinical record against an untagged confirmed one. -/
theorem claim_C4_witness :
    Exposure.Revise untaggedClinicalExposure untaggedConfirmedExposure =
      .error .nonLocalProvenance :=
  claim_C4 untaggedClinicalExposure untaggedConfirmedExposure rfl rfl rfl rfl rfl rfl
    (by decide) rfl

/-- C4 counterexample: the existing record is non-local and the incoming
record misses one provenance tag (the federation query id), which satisfies
the claim's premise as stated, yet the revision succeeds because both
records carry the same export-import id. -/
theorem claim_C4_counterexample :
    sameSourceExisting.localProvenance = false ∧
    sameSourceIncoming.federationQueryID = "" ∧
    Exposure.Revise sameSourceExisting sameSourceIncoming =
      .ok (true, applyRevision sameSourceExisting sameSourceIncoming) := by decide

/-- C7: a nonzero provided transmission risk is preserved for every report
type; a zero one is backfilled from the table: confirmed standard for
confirmed, clinical for likely, negative for negative, unknown otherwise. -/
theorem claim_C7 (r : String) (tr : Int) :
    (tr ≠ 0 → ReportTypeTransmissionRisk r tr = tr) ∧
    (tr = 0 → ReportTypeTransmissionRisk r tr =
      if r = ReportTypeConfirmed then TransmissionRiskConfirmedStandard
      else if r = ReportTypeClinical then TransmissionRiskClinical
      else if r = ReportTypeNegative then TransmissionRiskNegative
      else TransmissionRiskUnknown) := by
  constructor
  · intro h; unfold ReportTypeTransmissionRisk; rw [if_pos h]
  · intro h
    subst h
    unfold ReportTypeTransmissionRisk
    rw [if_neg (by simp)]

/-- C7 witness: a provided risk of 8 survives a clinical report; zero risk
backfills to the confirmed-standard and unknown table entries. -/
theorem claim_C7_witness :
    ReportTypeTransmissionRisk ReportTypeClinical 8 = 8 ∧
    ReportTypeTransmissionRisk ReportTypeConfirmed 0 = TransmissionRiskConfirmedStandard ∧
    ReportTypeTransmissionRisk "" 0 = TransmissionRiskUnknown := by
  refine ⟨(claim_C7 ReportTypeClinical 8).1 (by decide), ?_, ?_⟩
  · have h := (claim_C7 ReportTypeConfirmed 0).2 rfl
    rw [if_pos rfl] at h
    exact h
  · have h := (claim_C7 "" 0).2 rfl
    rw [if_neg (by decide), if_neg (by decide), if_neg (by decide)] at h
    exact h

/-- C8: the day distance between two interval numbers is the floor of their
difference over 144, rounding toward negative infinity also for negative
differences: a difference of minus 150 intervals is minus 2 days and one of
plus 210 intervals is 1 day. -/
theorem claim_C8 :
    (∀ a b : Int, DaysBetweenIntervals a b = Int.fdiv (b - a) 144) ∧
    (∀ a b : Int, DaysBetweenIntervals a b = (b - a) / 144) ∧
    DaysBetweenIntervals 0 (-150) = -2 ∧
    DaysBetweenIntervals 0 210 = 1 := by
  refine ⟨daysBetween_eq_fdiv, ?_, by decide, by decide⟩
  intro a b
  rw [daysBetween_eq_fdiv, Int.fdiv_eq_ediv _ (by norm_num)]

/-- C9: the finalize function of a federation-in sync, applied as one state
transition (the transaction), leaves every bookmark row untouched when the
sync inserted nothing, always completes the sync row with the completion
time and insertion count (max timestamps null on an empty sync), and on a
sync with insertions writes the cursor pair of the fetch state back onto
the bookmark row of the query. -/
theorem claim_C9 (syncID completed : Int) (state : FetchState)
    (q : FederationInQuery) (totalInserted : Int) (db : FederationInDBState) :
    (totalInserted = 0 →
      (finalizeFederationInSync syncID completed state q totalInserted db).queries =
        db.queries) ∧
    (finalizeFederationInSync syncID completed state q totalInserted db).syncs =
      db.syncs.map (fun s =>
        if s.syncID = syncID then
          { s with
            completed := some completed
            insertions := some totalInserted
            maxTimestamp :=
              if totalInserted > 0 then some state.keyCursor.timestamp else none
            maxRevisedTimestamp :=
              if totalInserted > 0 then some state.revisedKeyCursor.timestamp else none }
        else s) ∧
    (0 < totalInserted →
      (finalizeFederationInSync syncID completed state q totalInserted db).queries =
        db.queries.map (fun r =>
          if r.queryID = q.queryID then
            { r with
              lastTimestamp := state.keyCursor.timestamp
              lastCursor := state.keyCursor.nextToken
              lastRevisedTimestamp := state.revisedKeyCursor.timestamp
              lastRevisedCursor := state.revisedKeyCursor.nextToken }
          else r)) := by
  refine ⟨?_, ?_, ?_⟩
  · intro h0
    subst h0
    simp [finalizeFederationInSync]
  · by_cases h : totalInserted > 0 <;>
      simp [finalizeFederationInSync, FederationInQuery.UpdateFetchState, h]
  · intro h
    simp [finalizeFederationInSync, FederationInQuery.UpdateFetchState, h]

/-- C9 witness: finalizing the sample sync with zero insertions leaves the
bookmark row untouched while the sync row is completed. -/
theorem claim_C9_witness :
    (finalizeFederationInSync 9 700 sampleFetchState sampleQuery 0 sampleFederationDB).queries =
      sampleFederationDB.queries ∧
    (finalizeFederationInSync 9 700 sampleFetchState sampleQuery 0 sampleFederationDB).syncs =
      [{ sampleSync with completed := some 700, insertions := some 0 }] :=
  ⟨(claim_C9 9 700 sampleFetchState sampleQuery 0 sampleFederationDB).1 rfl, by decide⟩

/-- C10: an accepted revision replaces the existing record's health
authority id with the incoming one, while the report type, transmission
risk, symptom-onset days and creation time of the original are kept. -/
theorem claim_C10 (e i e' : Exposure) (h : e.Revise i = .ok (true, e')) :
    e'.healthAuthorityID = i.healthAuthorityID ∧
    e'.reportType = e.reportType ∧
    e'.transmissionRisk = e.transmissionRisk ∧
    e'.daysSinceSymptomOnset = e.daysSinceSymptomOnset ∧
    e'.createdAt = e.createdAt := by
  have he : e' = applyRevision e i := revise_ok_true_eq h
  subst he
  exact ⟨rfl, rfl, rfl, rfl, rfl⟩

/-- C10 witness: the sample revision moves the health authority id from 2
to the incoming 3. -/
theorem claim_C10_witness :
    Exposure.Revise reviseSampleExisting reviseSampleIncoming =
      .ok (true, applyRevision reviseSampleExisting reviseSampleIncoming) ∧
    (applyRevision reviseSampleExisting reviseSampleIncoming).healthAuthorityID = some 3 ∧
    reviseSampleExisting.healthAuthorityID = some 2 :=
  ⟨by decide,
    (claim_C10 reviseSampleExisting reviseSampleIncoming
      (applyRevision reviseSampleExisting reviseSampleIncoming) (by decide)).1,
    by decide⟩

end ENCore
